import Mathlib

/-!
Shallow embedding of `src/autoedaer/processors/data_processing.py`.

The program manipulates pandas DataFrames.  We model:
  * a scalar cell as `Option PyVal` (`none` is the missing marker, NaN or None);
  * numeric values as rationals (Python floats are embedded into ℚ);
  * a DataFrame as a `Table`: a row-label index plus named columns of cells;
  * a pandas Series (one column plus its dtype) as `Series`;
  * Python exceptions as `PyErr` (messages elided); fallible operations
    return `Except PyErr _`.

Pandas library calls used by the source are modelled after their documented
semantics; each model definition carries a comment naming the pandas
operation it embeds.
-/

namespace AutoEDAer

/- Core marks rational arithmetic `@[irreducible]`, which blocks
elaboration-time evaluation of concrete tables (the kernel is unaffected);
restore the default reducibility locally so `decide` and `rfl` can
evaluate the models on concrete inputs. -/
attribute [local semireducible] Rat.add Rat.sub Rat.mul Rat.inv

/-- Numpy dtypes that appear in the source (`np.int8` … `np.float64`),
plus `obj` for Python-object columns and `datetime64` for timestamps. -/
inductive DType
  | int8 | int16 | int32 | int64
  | uint8 | uint16 | uint32 | uint64
  | float32 | float64
  | obj | datetime64
deriving DecidableEq

/-- `numpy.dtype.kind`: the one-character type-kind code. -/
def DType.kind : DType → Char
  | .int8 | .int16 | .int32 | .int64 => 'i'
  | .uint8 | .uint16 | .uint32 | .uint64 => 'u'
  | .float32 | .float64 => 'f'
  | .obj => 'O'
  | .datetime64 => 'M'

/-- Scalar values that can sit in a cell: numbers (ℚ embeds Python ints and
floats), strings, numpy type objects (`np.int8` the class itself, which the
source stores into cells via `Series.apply`), and timestamps. -/
inductive PyVal
  | num (q : ℚ)
  | str (s : String)
  | dtypeObj (d : DType)
  | tsv (n : ℤ)
deriving DecidableEq

/-- A cell: `none` is the missing marker (NaN / None / NaT). -/
abbrev Cell := Option PyVal

/-- A pandas axis label: default RangeIndex labels are ints, column names
are strings.  Labels of the two shapes never compare equal. -/
inductive Label
  | nat (n : Nat)
  | str (s : String)
deriving DecidableEq

/-- A DataFrame: row-label index plus named columns of cells.
Well-formed tables have every column of length `index.length`. -/
structure Table where
  index : List Label
  cols : List (String × List Cell)
deriving DecidableEq

/-- A pandas Series: its dtype and its cells. -/
structure Series where
  dtype : DType
  values : List Cell
deriving DecidableEq

/-- Python exceptions raised by the source or by pandas calls it makes
(messages elided). -/
inductive PyErr
  | valueError
  | keyError
  | typeError
  | attributeError
deriving DecidableEq

/-- Column names of a table, in order (`df.columns`). -/
def Table.names (df : Table) : List String :=
  df.cols.map Prod.fst

/-- Row count (`df.shape[0]` = length of the index). -/
def Table.nrows (df : Table) : Nat :=
  df.index.length

/-- `df[c]` as a column read: the cells of column `c`, if present. -/
def Table.getCol (df : Table) (c : String) : Option (List Cell) :=
  (df.cols.find? (fun p => p.1 == c)).map Prod.snd

/-- Column cells with `[]` default, for use after presence is known. -/
def Table.getColD (df : Table) (c : String) : List Cell :=
  (df.getCol c).getD []

/-- `df[c] = cells`: replace the cells of an existing column `c`. -/
def Table.setCol (df : Table) (c : String) (cells : List Cell) : Table :=
  ⟨df.index, df.cols.map (fun p => if p.1 == c then (p.1, cells) else p)⟩

/-- The cell at column `c`, row position `i`. -/
def Table.cellAt (df : Table) (c : String) (i : Nat) : Cell :=
  (df.getColD c).getD i none

/-- The numeric values of a list of cells (missing and non-numeric skipped,
as pandas numeric reductions do). -/
def numsOf (cells : List Cell) : List ℚ :=
  cells.filterMap (fun c => match c with
    | some (.num q) => some q
    | _ => none)

/-- Count of non-missing cells (`Series.count`). -/
def countNonMissing (cells : List Cell) : Nat :=
  (cells.filterMap id).length

/-- `Series.min()`: minimum over non-missing numeric values; `none` models
the NaN result on an empty series (NaN comparisons are all false). -/
def seriesMin (s : Series) : Option ℚ :=
  match numsOf s.values with
  | [] => none
  | q :: qs => some (qs.foldl min q)

/-- `Series.max()`, as for `seriesMin`. -/
def seriesMax (s : Series) : Option ℚ :=
  match numsOf s.values with
  | [] => none
  | q :: qs => some (qs.foldl max q)

/-- `np.iinfo(t).min` for the four signed widths (0 elsewhere, unused). -/
def DType.iinfoMin : DType → ℚ
  | .int8 => -(2 ^ 7)
  | .int16 => -(2 ^ 15)
  | .int32 => -(2 ^ 31)
  | .int64 => -(2 ^ 63)
  | _ => 0

/-- `np.iinfo(t).max` for the four signed widths (0 elsewhere, unused). -/
def DType.iinfoMax : DType → ℚ
  | .int8 => 2 ^ 7 - 1
  | .int16 => 2 ^ 15 - 1
  | .int32 => 2 ^ 31 - 1
  | .int64 => 2 ^ 63 - 1
  | _ => 0

/-- Bit width of the four signed integer dtypes (0 elsewhere, unused). -/
def DType.bits : DType → Nat
  | .int8 => 8
  | .int16 => 16
  | .int32 => 32
  | .int64 => 64
  | _ => 0

/-- The candidate widths tried by `infer_numeric_dtype`, in source order. -/
def signedWidths : List DType :=
  [DType.int8, DType.int16, DType.int32, DType.int64]

/-- Exact representability of a value in IEEE single precision: some pair
(mantissa, exponent) with 24-bit mantissa and exponent in the float32 range
produces it.  Models the round-trip test
`series.dropna() == series.dropna().astype(np.float32)` on our ℚ values. -/
def float32exact (q : ℚ) : Bool :=
  q == 0 ||
    (List.range 254).any (fun i =>
      let e : ℤ := (i : ℤ) - 149
      let m : ℚ := q / (2 : ℚ) ^ e
      m.den == 1 && m.num.natAbs < 2 ^ 24)

/-- `DataProcess.infer_numeric_dtype` (source lines 26-39): for integer-kind
series try int8/int16/int32/int64 bounds in order; for float-kind series
pick float32 when every non-missing value round-trips; otherwise (and when
no branch returns, e.g. NaN min/max on an empty series, or a uint value
above the int64 range) return the series dtype unchanged.  The nested
if/elif bounds checks of the integer branch are `intCascade`. -/
def intCascade (fallback : DType) (mn mx : ℚ) : DType :=
  if DType.iinfoMin .int8 ≤ mn ∧ mx ≤ DType.iinfoMax .int8 then .int8
  else if DType.iinfoMin .int16 ≤ mn ∧ mx ≤ DType.iinfoMax .int16 then .int16
  else if DType.iinfoMin .int32 ≤ mn ∧ mx ≤ DType.iinfoMax .int32 then .int32
  else if DType.iinfoMin .int64 ≤ mn ∧ mx ≤ DType.iinfoMax .int64 then .int64
  else fallback

/-- `DataProcess.infer_numeric_dtype`, assembled from the pieces above:
integer-kind series run the bounds cascade on their min and max (the NaN
min/max of an empty series makes every comparison false, so the dtype falls
through); float-kind series pick float32 exactly when every non-missing
value round-trips; all other dtypes are returned unchanged. -/
def infer_numeric_dtype (s : Series) : DType :=
  if s.dtype.kind = 'i' ∨ s.dtype.kind = 'u' then
    match seriesMin s, seriesMax s with
    | some mn, some mx => intCascade s.dtype mn mx
    | _, _ => s.dtype
  else if s.dtype.kind = 'f' then
    if ((numsOf s.values).all float32exact) then .float32 else .float64
  else
    s.dtype

/-- Distinct non-missing value count of a column (`Series.nunique`,
which drops missing values by default). -/
def nunique (cells : List Cell) : Nat :=
  (cells.filterMap id).dedup.length

/-- The column-keeping test of `remove_constant_or_unique_columns`:
`~df.nunique().isin([1, df.shape[0]])`. -/
def keepCol (n : Nat) (p : String × List Cell) : Bool :=
  !(nunique p.2 == 1 || nunique p.2 == n)

/-- `DataProcess.remove_constant_or_unique_columns` (source lines 57-59):
`df.loc[:, ~df.nunique().isin([1, df.shape[0]])]`. -/
def remove_constant_or_unique_columns (df : Table) : Table :=
  ⟨df.index, df.cols.filter (keepCol df.nrows)⟩

/-! ### MissingValue: remove_missing_columns and its dropna call -/

/-- The positions in `index` whose label lies in `subset`. -/
def subsetPositions (index : List Label) (subset : List Label) : List Nat :=
  (List.range index.length).filter (fun i => (index.getD i (.nat 0)) ∈ subset)

/-- `df.dropna(axis=1, thresh, subset)`: with `axis=1` pandas drops COLUMNS
and `subset` names labels along the other axis, i.e. ROW labels — a subset
label absent from the row index raises `KeyError`; otherwise a column is
kept when its count of non-missing cells over the subset rows is at least
`thresh`. -/
def dropnaAxis1 (df : Table) (thresh : Nat) (subset : List Label) :
    Except PyErr Table :=
  if subset.any (fun l => !(df.index.contains l)) then .error .keyError
  else
    let pos := subsetPositions df.index subset
    .ok ⟨df.index,
      df.cols.filter (fun p =>
        thresh ≤ countNonMissing (pos.map (fun i => p.2.getD i none)))⟩

/-- `MissingValue.remove_missing_columns` (source lines 103-121).
`max_missing_rate` is validated to [0,1]; `columns or df.columns` maps the
empty list (Python-falsy, like None) to all column names; `rate == 1`
returns the table untouched; otherwise the threshold is
`int(df.shape[0] * (1 - rate))` (truncation; the product is nonnegative
here so `Int.toNat ∘ Int.floor` is that truncation) and the column names
are passed to `dropna` as its `subset`. -/
def remove_missing_columns (df : Table) (columns : List String)
    (max_missing_rate : ℚ) : Except PyErr Table :=
  if ¬(0 ≤ max_missing_rate ∧ max_missing_rate ≤ 1) then .error .valueError
  else
    let columns' := if columns.isEmpty then df.names else columns
    if max_missing_rate = 1 then .ok df
    else
      let minNonMissing : Nat :=
        (Int.floor ((df.nrows : ℚ) * (1 - max_missing_rate))).toNat
      dropnaAxis1 df minNonMissing (columns'.map Label.str)

/-! ### MissingValue: statistic fills -/

/-- Mean of the non-missing numeric values of a column; `none` models the
NaN mean of an all-missing column (filling with NaN is a no-op). -/
def colMean (cells : List Cell) : Option ℚ :=
  match numsOf cells with
  | [] => none
  | qs => some (qs.sum / qs.length)

/-- Median of the non-missing numeric values (pandas: average of the two
middle values of the sorted list when the count is even). -/
def colMedian (cells : List Cell) : Option ℚ :=
  let qs := (numsOf cells).mergeSort (fun a b => a ≤ b)
  match qs.length with
  | 0 => none
  | Nat.succ _ =>
    let n := qs.length
    if n % 2 = 1 then some (qs.getD (n / 2) 0)
    else some ((qs.getD (n / 2 - 1) 0 + qs.getD (n / 2) 0) / 2)

/-- Whether a column is numeric-dtype for the purpose of `df.mean()` /
`df.median()` (non-numeric columns are skipped by those reductions):
every non-missing cell is a number. -/
def numericCol (cells : List Cell) : Bool :=
  cells.all (fun c => match c with
    | some (.num _) => true
    | none => true
    | _ => false)

/-- `df.mean()` / `df.median()` as a name-indexed series of fill values:
one entry per numeric column whose statistic is defined. -/
def dfStatSeries (stat : List Cell → Option ℚ) (df : Table) :
    List (String × ℚ) :=
  df.cols.filterMap (fun p =>
    if numericCol p.2 then (stat p.2).map (fun m => (p.1, m)) else none)

/-- `df.fillna(series)`: in each column whose name appears in the series,
replace missing cells by the series value; other columns untouched. -/
def fillnaSeries (df : Table) (s : List (String × ℚ)) : Table :=
  ⟨df.index,
    df.cols.map (fun p =>
      match s.find? (fun e => e.1 == p.1) with
      | some e => (p.1, p.2.map (fun c => match c with
          | none => some (.num e.2)
          | some v => some v))
      | none => p)⟩

/-- An ordering on values used by `DataFrame.mode` to sort each column's
modes (numbers by value and before strings; strings lexicographically;
other values last, by an arbitrary stable code). -/
def pyValLE (a b : PyVal) : Bool :=
  match a, b with
  | .num p, .num q => p ≤ q
  | .num _, _ => true
  | .str _, .num _ => false
  | .str s, .str t => s ≤ t
  | .str _, _ => true
  | .dtypeObj _, .tsv _ => true
  | .tsv m, .tsv n => m ≤ n
  | _, _ => false

/-- The modes of a column: its most frequent non-missing values, sorted
(`Series.mode`). -/
def colModes (cells : List Cell) : List PyVal :=
  let vs := cells.filterMap id
  let uniq := vs.dedup
  let best := (uniq.map (fun v => vs.count v)).foldl max 0
  ((uniq.filter (fun v => vs.count v == best)).mergeSort pyValLE)

/-- `df.mode()` as a frame: column `c` of the result holds the sorted modes
of column `c`, padded with missing cells to the tallest mode list. -/
def dfModeFrame (df : Table) : Table :=
  let lists := df.cols.map (fun p => (p.1, colModes p.2))
  let h := (lists.map (fun p => p.2.length)).foldl max 0
  ⟨(List.range h).map Label.nat,
    lists.map (fun p =>
      (p.1, (List.range h).map (fun i => p.2.get? i)))⟩

/-- `df.fillna(other_frame)`: fill the missing cell at row `i` of column
`c` with the non-missing cell at the same position of `other`, when any. -/
def fillnaFrame (df : Table) (other : Table) : Table :=
  ⟨df.index,
    df.cols.map (fun p =>
      let oc := other.getColD p.1
      (p.1, p.2.enum.map (fun e => match e.2 with
        | none => oc.getD e.1 none
        | some v => some v)))⟩

/-- `MissingValue.fill_na_by_statistics` (source lines 124-142): validate
the method, compute `columns or df.columns` — and then ignore it: the
source fills over the WHOLE frame (`df.fillna(df.median())` etc.). -/
def fill_na_by_statistics (df : Table) (columns : List String)
    (method : String) : Except PyErr Table :=
  if !(method == ("mean") || method == ("median") || method == ("mode"))
  then .error .valueError
  else
    let _columns' := if columns.isEmpty then df.names else columns
    if method == ("median") then .ok (fillnaSeries df (dfStatSeries colMedian df))
    else if method == ("mode") then .ok (fillnaFrame df (dfModeFrame df))
    else .ok (fillnaSeries df (dfStatSeries colMean df))

/-- `MissingValue.fill_na_by_rolling` (source lines 145-162): validate the
method; `columns or df.columns`; `window_size or df.shape[0]` (0 is falsy);
select `df[columns]` (KeyError on an unknown name); then evaluate
`df.rolling(...).transform` — pandas Rolling objects have NO `transform`
attribute, so the call raises `AttributeError` before filling anything. -/
def fill_na_by_rolling (df : Table) (columns : List String)
    (method : String) (window_size : Option Nat) (_center : Bool) :
    Except PyErr Table :=
  if !(method == ("mean") || method == ("median") || method == ("mode"))
  then .error .valueError
  else
    let columns' := if columns.isEmpty then df.names else columns
    let _ws := match window_size with
      | none => df.nrows
      | some 0 => df.nrows
      | some k => k
    if columns'.any (fun c => !(df.names.contains c)) then .error .keyError
    else .error .attributeError

/-- `MissingValue.fill_na_by_custom_value` (source lines 182-191): compute
`columns or df.columns`, then ignore it and run `df.fillna(value)` over the
whole frame.  `value=None` (the default) makes `fillna` itself raise
`ValueError` (must specify a fill value or method). -/
def fill_na_by_custom_value (df : Table) (columns : List String)
    (value : Cell) : Except PyErr Table :=
  let _columns' := if columns.isEmpty then df.names else columns
  match value with
  | none => .error .valueError
  | some v =>
    .ok ⟨df.index,
      df.cols.map (fun p =>
        (p.1, p.2.map (fun c => match c with
          | none => some v
          | some w => some w)))⟩

/-! ### MissingValue: forward / backward fill -/

/-- One forward-fill step: a non-missing cell replaces the carry, a missing
cell is replaced by it. -/
def ffillStep (carry c : Cell) : Cell :=
  match c with
  | some v => some v
  | none => carry

/-- Forward fill of one column, carrying the last non-missing value. -/
def ffillGo (carry : Cell) : List Cell → List Cell
  | [] => []
  | c :: cs =>
    let c' := ffillStep carry c
    c' :: ffillGo c' cs

/-- `Series.fillna(method='ffill')` on one column. -/
def ffillCol (cells : List Cell) : List Cell :=
  ffillGo none cells

/-- `Series.fillna(method='bfill')`: forward fill read from the right. -/
def bfillCol (cells : List Cell) : List Cell :=
  (ffillCol cells.reverse).reverse

/-- `df.fillna(method=m)` over every column of the frame. -/
def fillFB (df : Table) (method : String) : Table :=
  ⟨df.index,
    df.cols.map (fun p =>
      (p.1, if method == ("ffill") then ffillCol p.2 else bfillCol p.2))⟩

/-- `MissingValue.fill_na_forward_or_backward` (source lines 194-205):
validate the method against {ffill, bfill} (raising before any data is
touched), compute `columns or df.columns` — then ignore it and fill the
whole frame. -/
def fill_na_forward_or_backward (df : Table) (columns : List String)
    (method : String) : Except PyErr Table :=
  if !(method == ("ffill") || method == ("bfill")) then .error .valueError
  else
    let _columns' := if columns.isEmpty then df.names else columns
    .ok (fillFB df method)

/-! ### DataProcess: convert_data_type -/

/-- Digits-only decimal parse of a string. -/
def parseNatDigits (s : String) : Option Nat :=
  let cs := s.toList
  if cs ≠ [] ∧ cs.all Char.isDigit then
    some (cs.foldl (fun a c => a * 10 + (c.toNat - 48)) 0)
  else none

/-- Python `int(s)`: optional sign then digits, else a `ValueError`
(signalled here by `none`). -/
def parseIntStr (s : String) : Option ℤ :=
  match s.toList with
  | '-' :: rest => (parseNatDigits (String.mk rest)).map (fun n => -(n : ℤ))
  | '+' :: rest => (parseNatDigits (String.mk rest)).map (fun n => (n : ℤ))
  | _ => (parseNatDigits s).map (fun n => (n : ℤ))

/-- Python `float(s)` on plain decimal literals `[sign]digits[.digits]`
(scientific notation and inf/nan spellings elided from the model). -/
def parseDecStr (s : String) : Option ℚ :=
  match s.splitOn (".") with
  | [a] => (parseIntStr a).map (fun k => (k : ℚ))
  | [a, b] =>
    match parseIntStr a, parseNatDigits b with
    | some ip, some fn =>
      let f : ℚ := (fn : ℚ) / (10 : ℚ) ^ b.length
      let mag : ℚ := |(ip : ℚ)| + f
      some (if s.startsWith ("-") then -mag else mag)
    | _, _ => none
  | _ => none

/-- Truncation toward zero, as numpy `astype(int)` does on floats. -/
def ratTrunc (q : ℚ) : ℤ :=
  if 0 ≤ q then Int.floor q else Int.ceil q

/-- `astype('int')` on one cell.  A missing cell is modelled as the Python
`None` of an object column, whose int conversion raises `TypeError`
(a float NaN raises a `ValueError` subclass instead; the model keeps the
object-column reading).  Unparseable strings raise `ValueError`; numbers
truncate toward zero; type objects raise `TypeError`; datetimes cast to
their integer representation. -/
def castIntCell : Cell → Except PyErr ℤ
  | none => .error .typeError
  | some (.num q) => .ok (ratTrunc q)
  | some (.str s) =>
    match parseIntStr s with
    | some k => .ok k
    | none => .error .valueError
  | some (.dtypeObj _) => .error .typeError
  | some (.tsv n) => .ok n

/-- `astype('float')` on one cell: `None`/NaN casts to NaN, numbers pass
through, strings parse or raise `ValueError`, type objects raise
`TypeError`. -/
def castFloatCell : Cell → Except PyErr Cell
  | none => .ok none
  | some (.num q) => .ok (some (.num q))
  | some (.str s) =>
    match parseDecStr s with
    | some q => .ok (some (.num q))
    | none => .error .valueError
  | some (.dtypeObj _) => .error .typeError
  | some (.tsv n) => .ok (some (.num (n : ℚ)))

/-- The source's `.apply(DataProcess.infer_numeric_dtype)` on an int64
scalar `k`: numpy scalars expose `dtype`/`min`/`max`, so the function runs
on the one-element range [k, k] and returns a numpy type OBJECT, which the
source stores back into the cell. -/
def inferScalarInt (k : ℤ) : DType :=
  infer_numeric_dtype ⟨.int64, [some (.num (k : ℚ))]⟩

/-- A simple ISO `YYYY-MM-DD` reading for the `to_datetime` model,
encoding the date as the integer `y * 10000 + m * 100 + d`. -/
def parseISODate (s : String) : Option ℤ :=
  match s.splitOn ("-") with
  | [y, m, d] =>
    match parseNatDigits y, parseNatDigits m, parseNatDigits d with
    | some yn, some mn, some dn => some ((yn * 10000 + mn * 100 + dn : ℕ) : ℤ)
    | _, _, _ => none
  | _ => none

/-- `pd.to_datetime(_, infer_datetime_format=True, errors='coerce')` on a
cell: parseable strings become timestamps, numbers are read as epoch-style
integers (simplified), anything unparseable coerces to missing (NaT) —
never an error. -/
def toDatetimeCell : Cell → Cell
  | none => none
  | some (.str s) =>
    match parseISODate s with
    | some n => some (.tsv n)
    | none => none
  | some (.num q) => some (.tsv (ratTrunc q))
  | some (.tsv n) => some (.tsv n)
  | some (.dtypeObj _) => none

/-- String rendering used by the `astype(str)` model (missing cells render
as the string nan, as pandas does; renderings are simplified). -/
def strOfCell : Cell → String
  | none => "nan"
  | some (.num q) => toString q
  | some (.str s) => s
  | some (.dtypeObj _) => "type"
  | some (.tsv n) => toString n

/-- One column of `DataProcess.convert_data_type` (source lines 44-53),
before its try/except:
  * target int: `astype('int')` then elementwise `infer_numeric_dtype`,
    leaving numpy type objects in the cells;
  * target float: `astype('float')` succeeds, but the elementwise apply
    then calls `Series.dropna` on a float SCALAR, so any nonempty column
    raises `AttributeError`;
  * target datetime: `to_datetime` with coercion, never an error;
  * other targets: plain `astype` (modelled for `str`; an unknown dtype
    string raises numpy's data-type-not-understood `TypeError`). -/
def convertCol (dtype : String) (cells : List Cell) :
    Except PyErr (List Cell) :=
  if dtype == ("int") || dtype == ("float") then
    if dtype == ("int") then
      (cells.mapM castIntCell).map
        (fun ks => ks.map (fun k => some (.dtypeObj (inferScalarInt k))))
    else
      match cells.mapM castFloatCell with
      | .error e => .error e
      | .ok casted => if casted.isEmpty then .ok [] else .error .attributeError
  else if dtype == ("datetime") then .ok (cells.map toDatetimeCell)
  else if dtype == ("str") then
    .ok (cells.map (fun c => some (.str (strOfCell c))))
  else .error .typeError

/-- One iteration of the source's loop: read `df[col]` (an unknown column
raises `KeyError`, which the `except ValueError` does NOT catch), convert,
and write back; a `ValueError` is caught and logged, leaving the column
unchanged; any other exception propagates. -/
def convertStep (dtype : String) (acc : Table) (c : String) :
    Except PyErr Table :=
  match acc.getCol c with
  | none => .error .keyError
  | some cells =>
    match convertCol dtype cells with
    | .ok cells2 => .ok (acc.setCol c cells2)
    | .error .valueError => .ok acc
    | .error e => .error e

/-- `DataProcess.convert_data_type` (source lines 42-54): fold the
per-column step over the batch. -/
def convert_data_type (df : Table) (cols : List String) (dtype : String) :
    Except PyErr Table :=
  cols.foldlM (convertStep dtype) df

/-! ### DataProcess: drop duplicates -/

/-- The tuple of values of row `i` at the subset columns. -/
def rowKey (df : Table) (subset : List String) (i : Nat) : List Cell :=
  subset.map (fun c => df.cellAt c i)

/-- The row positions kept by `drop_duplicates(subset, keep='first')`:
a row survives when no earlier row has the same subset-key. -/
def keptRows (df : Table) (subset : List String) : List Nat :=
  (List.range df.nrows).filter (fun i =>
    (List.range i).all (fun j => !(rowKey df subset j == rowKey df subset i)))

/-- The deduplicated table: kept rows in order, original labels kept. -/
def ddTable (df : Table) (subset : List String) : Table :=
  let kept := keptRows df subset
  ⟨kept.map (fun i => df.index.getD i (.nat 0)),
    df.cols.map (fun p => (p.1, kept.map (fun i => p.2.getD i none)))⟩

/-- `df.drop_duplicates(subset=...)`: `KeyError` on an unknown subset
column, else the deduplicated table. -/
def dropDuplicates (df : Table) (subset : List String) : Except PyErr Table :=
  if subset.any (fun c => !(df.names.contains c)) then .error .keyError
  else .ok (ddTable df subset)

/-- `DataProcess.remove_duplicate_rows_by_columns` (source lines 62-64):
`return df.drop_duplicates(subset=columns, inplace=True)`.  With
`inplace=True` pandas mutates `df` and returns `None`; the source returns
that `None`.  The result models the caller's view: the returned value
(always `none` on success) paired with the mutated table. -/
def remove_duplicate_rows_by_columns (df : Table) (columns : List String) :
    Except PyErr (Option Table × Table) :=
  match dropDuplicates df columns with
  | .error e => .error e
  | .ok df2 => .ok (none, df2)

/-! ### DataProcess: combine_dataframes -/

/-- The merge types pandas accepts. -/
def validHows : List String := ["left", "right", "outer", "inner"]

/-- Key of row `i` of `t` on the join columns. -/
def mergeKey (t : Table) (onCols : List String) (i : Nat) : List Cell :=
  onCols.map (fun c => t.cellAt c i)

/-- Row pairings of a merge: `(some i, some j)` for a key match, a `none`
side for an unmatched row padded with missing values. -/
def mergePairs (df1 df2 : Table) (onCols : List String) (how : String) :
    List (Option Nat × Option Nat) :=
  let n1 := df1.nrows
  let n2 := df2.nrows
  let matchesL := fun i =>
    (List.range n2).filter (fun j => mergeKey df1 onCols i == mergeKey df2 onCols j)
  let matchesR := fun j =>
    (List.range n1).filter (fun i => mergeKey df1 onCols i == mergeKey df2 onCols j)
  let leftRows :=
    (List.range n1).flatMap (fun i =>
      let ms := matchesL i
      if ms.isEmpty then [((some i : Option Nat), (none : Option Nat))]
      else ms.map (fun j => (some i, some j)))
  let rightOnlyRows :=
    ((List.range n2).filter (fun j => (matchesR j).isEmpty)).map
      (fun j => ((none : Option Nat), (some j : Option Nat)))
  if how == ("inner") then
    (List.range n1).flatMap (fun i => (matchesL i).map (fun j => ((some i : Option Nat), (some j : Option Nat))))
  else if how == ("left") then leftRows
  else if how == ("right") then
    (List.range n2).flatMap (fun j =>
      let ms := matchesR j
      if ms.isEmpty then [((none : Option Nat), (some j : Option Nat))]
      else ms.map (fun i => (some i, some j)))
  else leftRows ++ rightOnlyRows

/-- `pd.merge(df1, df2, on, how)`: validates `how`, raises `KeyError` when
a join column is missing from either side, else builds the joined table:
df1's columns (join keys merged across both sides, clashing non-key names
suffixed `_x`) followed by df2's remaining columns (suffixed `_y` on a
clash), over a fresh RangeIndex.  Pandas orders outer-join rows by sorted
key; the model keeps left-then-unmatched-right order, which no property
below depends on. -/
def merge (df1 df2 : Table) (onCols : List String) (how : String) :
    Except PyErr Table :=
  if !(validHows.contains how) then .error .valueError
  else if onCols.any (fun c =>
      !(df1.names.contains c) || !(df2.names.contains c)) then
    .error .keyError
  else
    let pairs := mergePairs df1 df2 onCols how
    let clash := fun c =>
      (df1.names.contains c && df2.names.contains c) && !(onCols.contains c)
    let fromLeft := df1.cols.map (fun p =>
      let name := if clash p.1 then p.1 ++ ("_x") else p.1
      if onCols.contains p.1 then
        (name, pairs.map (fun pr =>
          match pr.1 with
          | some i => df1.cellAt p.1 i
          | none =>
            match pr.2 with
            | some j => df2.cellAt p.1 j
            | none => none))
      else
        (name, pairs.map (fun pr =>
          match pr.1 with
          | some i => df1.cellAt p.1 i
          | none => none)))
    let fromRight := (df2.cols.filter (fun p => !(onCols.contains p.1))).map
      (fun p =>
        let name := if clash p.1 then p.1 ++ ("_y") else p.1
        (name, pairs.map (fun pr =>
          match pr.2 with
          | some j => df2.cellAt p.1 j
          | none => none)))
    .ok ⟨(List.range pairs.length).map Label.nat, fromLeft ++ fromRight⟩

/-- `pd.concat([df1, df2], axis=0, join='outer', ignore_index=True)`:
stack rows, align columns by name (df1's order, then df2's new names),
pad the missing side with missing values, fresh RangeIndex. -/
def concatVertical (df1 df2 : Table) : Table :=
  let names := df1.names ++ df2.names.filter (fun c => !(df1.names.contains c))
  let n1 := df1.nrows
  let n2 := df2.nrows
  ⟨(List.range (n1 + n2)).map Label.nat,
    names.map (fun c =>
      (c,
        ((List.range n1).map (fun i =>
          if df1.names.contains c then df1.cellAt c i else none)) ++
        ((List.range n2).map (fun j =>
          if df2.names.contains c then df2.cellAt c j else none))))⟩

/-- Python truthiness of the `on` argument: `None` and the empty list are
falsy. -/
def onTruthy : Option (List String) → Bool
  | none => false
  | some l => !l.isEmpty

/-- `DataProcess.combine_dataframes` (source lines 67-87): horizontal with
a truthy `on` merges; horizontal without it raises `ValueError`; vertical
concatenates; any other direction raises `ValueError`. -/
def combine_dataframes (df1 df2 : Table) (onCols : Option (List String))
    (how : String) (direction : String) : Except PyErr Table :=
  if direction == ("horizontal") then
    if onTruthy onCols then merge df1 df2 (onCols.getD []) how
    else .error .valueError
  else if direction == ("vertical") then .ok (concatVertical df1 df2)
  else .error .valueError

/-! ### Small result classifiers -/

/-- Whether a result is the configuration-error exception (`ValueError`). -/
def isValueError : Except PyErr α → Bool
  | .error .valueError => true
  | _ => false

/-- Whether a per-column conversion outcome is one the source loop absorbs:
success, or the caught-and-logged `ValueError`. -/
def nonFatalB : Except PyErr α → Bool
  | .ok _ => true
  | .error .valueError => true
  | .error _ => false

/-! ### Concrete tables and series used by the concrete properties -/

/-- A 10-row table (default RangeIndex) whose only column has 3 missing
values out of 10. -/
def df10 : Table :=
  ⟨(List.range 10).map Label.nat,
    [("a", [some (.num 1), some (.num 2), some (.num 3), some (.num 4),
            some (.num 5), some (.num 6), some (.num 7), none, none, none])]⟩

/-- The integer series with values [-5, 0, 100]. -/
def sEx : Series :=
  ⟨.int64, [some (.num (-5)), some (.num 0), some (.num 100)]⟩

/-- The integer series with values [-5, 0, 40000]. -/
def sEx2 : Series :=
  ⟨.int64, [some (.num (-5)), some (.num 0), some (.num 40000)]⟩

/-- An unsigned 64-bit series holding 2^63, above the int64 range. -/
def s0 : Series :=
  ⟨.uint64, [some (.num (2 ^ 63))]⟩

/-- Two numeric columns, each with one missing value. -/
def df3 : Table :=
  ⟨[.nat 0, .nat 1],
    [("a", [some (.num 1), none]), ("b", [none, some (.num 4)])]⟩

/-- `df3` after a whole-frame mean fill: BOTH columns filled. -/
def df3mean : Table :=
  ⟨[.nat 0, .nat 1],
    [("a", [some (.num 1), some (.num 1)]),
     ("b", [some (.num 4), some (.num 4)])]⟩

/-- `df3` after a whole-frame constant fill with 0: BOTH columns filled. -/
def df3zero : Table :=
  ⟨[.nat 0, .nat 1],
    [("a", [some (.num 1), some (.num 0)]),
     ("b", [some (.num 0), some (.num 4)])]⟩

/-- One numeric column [1, missing, 3]. -/
def dfR : Table :=
  ⟨[.nat 0, .nat 1, .nat 2], [("a", [some (.num 1), none, some (.num 3)])]⟩

/-- `dfR` with the missing value imputed by the global mean 2. -/
def dfRmean : Table :=
  ⟨[.nat 0, .nat 1, .nat 2],
    [("a", [some (.num 1), some (.num 2), some (.num 3)])]⟩

/-- The cells of the sequence [1, missing, missing, 4]. -/
def dfSeqCells : List Cell :=
  [some (.num 1), none, none, some (.num 4)]

/-- A one-column table over the sequence [1, missing, missing, 4]. -/
def dfSeq : Table :=
  ⟨[.nat 0, .nat 1, .nat 2, .nat 3], [("x", dfSeqCells)]⟩

/-- `dfSeq` forward-filled: [1, 1, 1, 4]. -/
def dfSeqF : Table :=
  ⟨[.nat 0, .nat 1, .nat 2, .nat 3],
    [("x", [some (.num 1), some (.num 1), some (.num 1), some (.num 4)])]⟩

/-- `dfSeq` backward-filled: [1, 4, 4, 4]. -/
def dfSeqB : Table :=
  ⟨[.nat 0, .nat 1, .nat 2, .nat 3],
    [("x", [some (.num 1), some (.num 4), some (.num 4), some (.num 4)])]⟩

/-- Column a holds a Python None; column b holds the parseable string 7. -/
def dfC6 : Table :=
  ⟨[.nat 0], [("a", [none]), ("b", [some (.str "7")])]⟩

/-- Column a holds an unparseable string; column b the parseable string
7. -/
def dfW : Table :=
  ⟨[.nat 0], [("a", [some (.str "zz")]), ("b", [some (.str "7")])]⟩

/-- A one-row table whose single cell is missing. -/
def dfm : Table := ⟨[.nat 0], [("a", [none])]⟩

/-- A one-row table whose single cell is present. -/
def df1r : Table := ⟨[.nat 0], [("a", [some (.num 5)])]⟩

/-- Three rows with a duplicated key in column k. -/
def dfd : Table :=
  ⟨[.nat 0, .nat 1, .nat 2],
    [("k", [some (.num 1), some (.num 1), some (.num 2)]),
     ("v", [some (.num 10), some (.num 20), some (.num 30)])]⟩

/-- A left table for merge properties. -/
def t1 : Table :=
  ⟨[.nat 0, .nat 1],
    [("k", [some (.num 1), some (.num 2)]),
     ("u", [some (.num 5), some (.num 6)])]⟩

/-- A right table for merge properties. -/
def t2 : Table :=
  ⟨[.nat 0, .nat 1],
    [("k", [some (.num 2), some (.num 3)]),
     ("w", [some (.num 7), some (.num 8)])]⟩

/-! ## Helper lemmas -/

/-- Each cell of a forward-filled column is the fold of `ffillStep` over the
prefix ending at it, i.e. the nearest non-missing value at or before it
(or the initial carry when the prefix is all-missing). -/
theorem ffillGo_getD (cs : List Cell) :
    ∀ (carry : Cell) (i : Nat), i < cs.length →
      (ffillGo carry cs).getD i none = (cs.take (i + 1)).foldl ffillStep carry := by
  induction cs with
  | nil =>
    intro carry i h
    exact absurd h (by simp)
  | cons c cs ih =>
    intro carry i h
    cases i with
    | zero =>
      simp [ffillGo, List.getD]
    | succ i =>
      have h' : i < cs.length := by simpa using h
      simp only [ffillGo, List.take_succ_cons, List.foldl_cons]
      simpa [List.getD] using ih (ffillStep carry c) i h'

/-- Rewriting one entry of a name-keyed column list leaves lookups of other
names unchanged. -/
theorem setEntry_comp_fst (c nm : String) (cells : List Cell) :
    ((fun p : String × List Cell => p.1 == nm) ∘
        (fun p => if p.1 == c then (p.1, cells) else p)) =
      fun p : String × List Cell => p.1 == nm := by
  funext p
  by_cases hc : p.1 = c <;> simp [Function.comp, hc]

theorem find?_set_ne (l : List (String × List Cell)) (c nm : String)
    (cells : List Cell) (h : nm ≠ c) :
    (l.map (fun p => if p.1 == c then (p.1, cells) else p)).find?
      (fun p => p.1 == nm) = l.find? (fun p => p.1 == nm) := by
  rw [List.find?_map, setEntry_comp_fst c nm cells]
  cases hf : l.find? (fun p => p.1 == nm) with
  | none => rfl
  | some x =>
    have hx1 : x.1 = nm := by simpa using List.find?_some hf
    have hxc : ¬(x.1 = c) := by rw [hx1]; exact h
    simp [hxc]

/-- Rewriting the entry of name `c` makes lookup of `c` return the new
cells, provided `c` was present. -/
theorem find?_set_self (l : List (String × List Cell)) (c : String)
    (cells : List Cell) (h : (l.find? (fun p => p.1 == c)).isSome = true) :
    (l.map (fun p => if p.1 == c then (p.1, cells) else p)).find?
      (fun p => p.1 == c) = some (c, cells) := by
  rw [List.find?_map, setEntry_comp_fst c c cells]
  cases hf : l.find? (fun p => p.1 == c) with
  | none => rw [hf] at h; simp at h
  | some x =>
    have hx1 : x.1 = c := by simpa using List.find?_some hf
    simp [hx1]

/-- `setCol` does not change other columns. -/
theorem getCol_setCol_ne (df : Table) (c nm : String) (cells : List Cell)
    (h : nm ≠ c) : (df.setCol c cells).getCol nm = df.getCol nm := by
  unfold Table.getCol Table.setCol
  rw [find?_set_ne df.cols c nm cells h]

/-- `setCol` on an existing column makes `getCol` read the new cells. -/
theorem getCol_setCol_self (df : Table) (c : String) (cells : List Cell)
    (h : (df.getCol c).isSome = true) :
    (df.setCol c cells).getCol c = some cells := by
  unfold Table.getCol at h ⊢
  unfold Table.setCol
  have h' : (df.cols.find? (fun p => p.1 == c)).isSome = true := by
    cases hf : df.cols.find? (fun p => p.1 == c) with
    | none => rw [hf] at h; simp at h
    | some _ => rfl
  rw [find?_set_self df.cols c cells h']
  rfl

/-- A merge whose `how` is one pandas accepts never raises `ValueError`
(its only failures are `KeyError` on missing join columns). -/
theorem merge_not_valueError (df1 df2 : Table) (l : List String)
    (how : String) (hhow : how ∈ validHows) :
    isValueError (merge df1 df2 l how) = false := by
  have hc : validHows.contains how = true := List.elem_eq_true_of_mem hhow
  unfold merge
  rw [hc]
  simp only [Bool.not_true, Bool.false_eq_true, if_false]
  split <;> rfl

/-- The bounds cascade picks a width in the candidate list whose range
contains [mn, mx], and no candidate of fewer bits contains it, whenever
[mn, mx] fits in int64 at all. -/
theorem intCascade_spec (fb : DType) (mn mx : ℚ)
    (hlo : DType.iinfoMin .int64 ≤ mn) (hhi : mx ≤ DType.iinfoMax .int64) :
    intCascade fb mn mx ∈ signedWidths ∧
    DType.iinfoMin (intCascade fb mn mx) ≤ mn ∧
    mx ≤ DType.iinfoMax (intCascade fb mn mx) ∧
    (∀ d ∈ signedWidths, DType.iinfoMin d ≤ mn → mx ≤ DType.iinfoMax d →
      (intCascade fb mn mx).bits ≤ d.bits) := by
  unfold intCascade
  split_ifs with h1 h2 h3 h4
  · refine ⟨by decide, h1.1, h1.2, ?_⟩
    intro d hd _ _
    simp only [signedWidths, List.mem_cons, List.not_mem_nil, or_false] at hd
    rcases hd with rfl | rfl | rfl | rfl <;> decide
  · refine ⟨by decide, h2.1, h2.2, ?_⟩
    intro d hd hdlo hdhi
    simp only [signedWidths, List.mem_cons, List.not_mem_nil, or_false] at hd
    rcases hd with rfl | rfl | rfl | rfl
    · exact absurd ⟨hdlo, hdhi⟩ h1
    · decide
    · decide
    · decide
  · refine ⟨by decide, h3.1, h3.2, ?_⟩
    intro d hd hdlo hdhi
    simp only [signedWidths, List.mem_cons, List.not_mem_nil, or_false] at hd
    rcases hd with rfl | rfl | rfl | rfl
    · exact absurd ⟨hdlo, hdhi⟩ h1
    · exact absurd ⟨hdlo, hdhi⟩ h2
    · decide
    · decide
  · refine ⟨by decide, h4.1, h4.2, ?_⟩
    intro d hd hdlo hdhi
    simp only [signedWidths, List.mem_cons, List.not_mem_nil, or_false] at hd
    rcases hd with rfl | rfl | rfl | rfl
    · exact absurd ⟨hdlo, hdhi⟩ h1
    · exact absurd ⟨hdlo, hdhi⟩ h2
    · exact absurd ⟨hdlo, hdhi⟩ h3
    · decide
  · exact absurd ⟨hlo, hhi⟩ h4

/-- The conversion loop, on a batch of distinct existing columns whose
per-column outcomes are all success or `ValueError`: it finishes without
raising, leaves columns outside the batch and `ValueError` columns
untouched, and installs the converted cells of successful columns. -/
theorem convert_fold_ok (dtype : String) :
    ∀ (cols : List String) (df : Table), cols.Nodup →
      (∀ c ∈ cols, (df.getCol c).isSome = true ∧
        nonFatalB (convertCol dtype (df.getColD c)) = true) →
      ∃ df2, List.foldlM (convertStep dtype) df cols = .ok df2 ∧
        (∀ nm, nm ∉ cols → df2.getCol nm = df.getCol nm) ∧
        (∀ c ∈ cols, convertCol dtype (df.getColD c) = .error .valueError →
          df2.getCol c = df.getCol c) ∧
        (∀ c ∈ cols, ∀ cells2, convertCol dtype (df.getColD c) = .ok cells2 →
          df2.getCol c = some cells2) := by
  intro cols
  induction cols with
  | nil =>
    intro df _ _
    exact ⟨df, rfl, fun _ _ => rfl, by simp, by simp⟩
  | cons c rest ih =>
    intro df hnd h
    obtain ⟨hs, hnf⟩ := h c (List.mem_cons_self c rest)
    obtain ⟨cells, hcells⟩ := Option.isSome_iff_exists.mp hs
    have hgd : df.getColD c = cells := by simp [Table.getColD, hcells]
    have hcn : c ∉ rest := (List.nodup_cons.mp hnd).1
    have hnd' : rest.Nodup := (List.nodup_cons.mp hnd).2
    rw [hgd] at hnf
    cases hcc : convertCol dtype cells with
    | ok cells2 =>
      have hstep : convertStep dtype df c = .ok (df.setCol c cells2) := by
        simp [convertStep, hcells, hcc]
      have hoff : ∀ nm, nm ≠ c →
          (df.setCol c cells2).getCol nm = df.getCol nm :=
        fun nm hnm => getCol_setCol_ne df c nm cells2 hnm
      have hself : (df.setCol c cells2).getCol c = some cells2 :=
        getCol_setCol_self df c cells2 hs
      have h' : ∀ x ∈ rest, ((df.setCol c cells2).getCol x).isSome = true ∧
          nonFatalB (convertCol dtype ((df.setCol c cells2).getColD x)) = true := by
        intro x hx
        have hxc : x ≠ c := fun e => hcn (e ▸ hx)
        have hgx : (df.setCol c cells2).getCol x = df.getCol x := hoff x hxc
        have hgdx : (df.setCol c cells2).getColD x = df.getColD x := by
          simp [Table.getColD, hgx]
        rw [hgx, hgdx]
        exact h x (List.mem_cons_of_mem c hx)
      obtain ⟨df2, hfold, hoff2, hve2, hok2⟩ := ih (df.setCol c cells2) hnd' h'
      refine ⟨df2, ?_, ?_, ?_, ?_⟩
      · rw [List.foldlM_cons, hstep]
        simpa using hfold
      · intro nm hnm
        have h1 : nm ∉ rest := fun hh => hnm (List.mem_cons_of_mem c hh)
        have h2 : nm ≠ c := fun e => hnm (e ▸ List.mem_cons_self c rest)
        rw [hoff2 nm h1, hoff nm h2]
      · intro x hx hve
        rcases List.mem_cons.mp hx with rfl | hx'
        · rw [hgd, hcc] at hve
          cases hve
        · have hxc : x ≠ c := fun e => hcn (e ▸ hx')
          have hgdx : (df.setCol c cells2).getColD x = df.getColD x := by
            simp [Table.getColD, hoff x hxc]
          rw [(hve2 x hx' (by rw [hgdx]; exact hve))]
          exact hoff x hxc
      · intro x hx cs2 hok
        rcases List.mem_cons.mp hx with rfl | hx'
        · rw [hgd, hcc] at hok
          cases hok
          rw [hoff2 x hcn]
          exact hself
        · have hxc : x ≠ c := fun e => hcn (e ▸ hx')
          have hgdx : (df.setCol c cells2).getColD x = df.getColD x := by
            simp [Table.getColD, hoff x hxc]
          exact hok2 x hx' cs2 (by rw [hgdx]; exact hok)
    | error e =>
      have he : e = .valueError := by
        rw [hcc] at hnf
        cases e
        case valueError => rfl
        all_goals simp [nonFatalB] at hnf
      subst he
      have hstep : convertStep dtype df c = .ok df := by
        simp [convertStep, hcells, hcc]
      have h' : ∀ x ∈ rest, (df.getCol x).isSome = true ∧
          nonFatalB (convertCol dtype (df.getColD x)) = true :=
        fun x hx => h x (List.mem_cons_of_mem c hx)
      obtain ⟨df2, hfold, hoff2, hve2, hok2⟩ := ih df hnd' h'
      refine ⟨df2, ?_, ?_, ?_, ?_⟩
      · rw [List.foldlM_cons, hstep]
        simpa using hfold
      · intro nm hnm
        exact hoff2 nm (fun hh => hnm (List.mem_cons_of_mem c hh))
      · intro x hx _
        rcases List.mem_cons.mp hx with rfl | hx'
        · exact hoff2 x hcn
        · exact hve2 x hx' (by assumption)
      · intro x hx cs2 hok
        rcases List.mem_cons.mp hx with rfl | hx'
        · rw [hgd, hcc] at hok
          cases hok
        · exact hok2 x hx' cs2 hok

/-! ## Claim theorems -/

/-- Claim C1 (code bug).  The source passes the COLUMN subset as the
`subset` of `dropna(axis=1, ...)`, but with `axis=1` that argument names
ROW labels, so on a normal table (integer row labels, string column names)
the call raises `KeyError` instead of keeping or dropping columns by
missing rate: on a 10-row table whose column has 3 missing values,
`max_missing_rate` 1/2 and 1/5 both raise `KeyError` (the claim says keep,
resp. drop).  The validation parts of the claim do hold: an out-of-range
rate raises the configuration `ValueError`, and rate 1 returns the table
untouched (that branch runs before the broken `dropna`). -/
theorem c1_remove_missing_columns_subset_keyerror :
    remove_missing_columns df10 ["a"] (1 / 2) = .error .keyError ∧
    remove_missing_columns df10 ["a"] (1 / 5) = .error .keyError ∧
    remove_missing_columns df10 ["a"] (3 / 2) = .error .valueError ∧
    remove_missing_columns df10 ["a"] 1 = .ok df10 :=
  ⟨rfl, rfl, rfl, rfl⟩

/-- Claim C2, counterexample.  The claim quantifies over every integer-kind
column, but a uint64 column holding 2^63 is integer-kind (`kind` is u),
no signed width of 8/16/32/64 bits contains its min and max, and the code
returns the original uint64 dtype — not a signed width at all.  So the
claim as stated fails on unsigned columns beyond the int64 range. -/
theorem c2_infer_counterexample :
    s0.dtype.kind = 'u' ∧
    infer_numeric_dtype s0 = DType.uint64 ∧
    DType.uint64 ∉ signedWidths ∧
    seriesMin s0 = some (2 ^ 63) ∧ seriesMax s0 = some (2 ^ 63) ∧
    (∀ d ∈ signedWidths,
      ¬(DType.iinfoMin d ≤ (2 ^ 63 : ℚ) ∧ (2 ^ 63 : ℚ) ≤ DType.iinfoMax d)) := by
  refine ⟨rfl, by decide, by decide, by decide, by decide, by decide⟩

/-- Claim C2, amended.  For every integer-kind column whose observed min
and max both lie within the signed 64-bit range, `infer_numeric_dtype`
returns a width from {int8, int16, int32, int64} whose range contains both
the min and the max, and no admissible width has fewer bits: it is the
smallest, tried in 8/16/32/64 order.  (Outside that range — possible only
for unsigned columns — the original dtype is returned unchanged, as the
counterexample shows.) -/
theorem c2_infer_smallest_signed_width (s : Series) (mn mx : ℚ)
    (hk : s.dtype.kind = 'i' ∨ s.dtype.kind = 'u')
    (hmn : seriesMin s = some mn) (hmx : seriesMax s = some mx)
    (hlo : DType.iinfoMin .int64 ≤ mn) (hhi : mx ≤ DType.iinfoMax .int64) :
    infer_numeric_dtype s ∈ signedWidths ∧
    DType.iinfoMin (infer_numeric_dtype s) ≤ mn ∧
    mx ≤ DType.iinfoMax (infer_numeric_dtype s) ∧
    (∀ d ∈ signedWidths, DType.iinfoMin d ≤ mn → mx ≤ DType.iinfoMax d →
      (infer_numeric_dtype s).bits ≤ d.bits) := by
  have heq : infer_numeric_dtype s = intCascade s.dtype mn mx := by
    unfold infer_numeric_dtype
    rw [if_pos hk, hmn, hmx]
  rw [heq]
  exact intCascade_spec s.dtype mn mx hlo hhi

/-- Witness for C2's amended theorem: the spec's own example [-5, 0, 100]
satisfies the hypotheses and gets the smallest covering width (int8, also
checked directly), and [-5, 0, 40000] gets int32. -/
theorem c2_infer_smallest_signed_width_witness :
    ((sEx.dtype.kind = 'i' ∨ sEx.dtype.kind = 'u') ∧
      seriesMin sEx = some (-5) ∧ seriesMax sEx = some 100 ∧
      DType.iinfoMin .int64 ≤ (-5 : ℚ) ∧ (100 : ℚ) ≤ DType.iinfoMax .int64 ∧
      infer_numeric_dtype sEx = DType.int8 ∧
      infer_numeric_dtype sEx2 = DType.int32) ∧
    (infer_numeric_dtype sEx ∈ signedWidths ∧
      DType.iinfoMin (infer_numeric_dtype sEx) ≤ (-5 : ℚ) ∧
      (100 : ℚ) ≤ DType.iinfoMax (infer_numeric_dtype sEx) ∧
      (∀ d ∈ signedWidths, DType.iinfoMin d ≤ (-5 : ℚ) →
        (100 : ℚ) ≤ DType.iinfoMax d →
        (infer_numeric_dtype sEx).bits ≤ d.bits)) :=
  ⟨by decide,
    c2_infer_smallest_signed_width sEx (-5) 100 (Or.inl rfl)
      (by decide) (by decide) (by decide) (by decide)⟩

/-- Claim C3 (code bug).  Each fill method computes
`columns = columns or df.columns` and then ignores it, filling the WHOLE
frame, so a column outside the requested subset is modified: on a table
with columns a and b, filling only a by mean also imputes b's missing
value with b's mean, and a constant fill of a also rewrites b.  This
contradicts both the spec and the source's own docstrings. -/
theorem c3_fill_methods_ignore_column_subset :
    fill_na_by_statistics df3 ["a"] ("mean") = .ok df3mean ∧
    df3mean.getCol ("b") ≠ df3.getCol ("b") ∧
    fill_na_by_custom_value df3 ["a"] (some (.num 0)) = .ok df3zero ∧
    df3zero.getCol ("b") ≠ df3.getCol ("b") :=
  ⟨rfl, by decide, rfl, by decide⟩

/-- Claim C4 (confirmed).  `fill_na_forward_or_backward` returns the
configuration `ValueError` exactly when its method is outside the
enumerated pair {ffill, bfill} — the source's spellings of forward and
backward — and otherwise fills without error (validation happens before
any fill is computed); [1, missing, missing, 4] forward-fills to
[1,1,1,4] and backward-fills to [1,4,4,4]; in general every cell of a
forward-filled column is the nearest preceding non-missing value. -/
theorem c4_fill_forward_or_backward_spec :
    (∀ (df : Table) (cols : List String) (m : String),
      fill_na_forward_or_backward df cols m =
        if m == ("ffill") || m == ("bfill") then .ok (fillFB df m)
        else .error .valueError) ∧
    fill_na_forward_or_backward dfSeq [] ("ffill") = .ok dfSeqF ∧
    fill_na_forward_or_backward dfSeq [] ("bfill") = .ok dfSeqB ∧
    (∀ (cells : List Cell) (i : Nat), i < cells.length →
      (ffillCol cells).getD i none = (cells.take (i + 1)).foldl ffillStep none) := by
  refine ⟨?_, rfl, rfl, ?_⟩
  · intro df cols m
    unfold fill_na_forward_or_backward
    cases h : (m == ("ffill") || m == ("bfill")) <;> simp [h]
  · intro cells i h
    exact ffillGo_getD cells none i h

/-- Witness for C4: the forward-fill characterization applied at position 2
of the sequence [1, missing, missing, 4]. -/
theorem c4_fill_forward_or_backward_spec_witness :
    2 < dfSeqCells.length ∧
    (ffillCol dfSeqCells).getD 2 none =
      (dfSeqCells.take (2 + 1)).foldl ffillStep none :=
  ⟨by decide, c4_fill_forward_or_backward_spec.2.2.2 dfSeqCells 2 (by decide)⟩

/-- Claim C5 (code bug).  The default-window rolling fill is NOT equivalent
to the global-statistic fill: the source calls
`df.rolling(...).transform(method)`, and pandas Rolling objects have no
`transform` attribute, so the call raises `AttributeError`, while
`fill_na_by_statistics` on the same input succeeds and actually imputes
(here [1, missing, 3] becomes [1, 2, 3]). -/
theorem c5_rolling_default_raises_attributeerror :
    fill_na_by_rolling dfR ["a"] ("mean") none false = .error .attributeError ∧
    fill_na_by_statistics dfR ["a"] ("mean") = .ok dfRmean ∧
    dfRmean ≠ dfR :=
  ⟨rfl, rfl, by decide⟩

/-- Claim C6, counterexample.  `convert_data_type` catches only
`ValueError`: converting a column holding a Python `None` to int raises
`TypeError`, which propagates and aborts the whole batch — the later
column b (a parseable string) is never converted.  So the call CAN raise
on a single bad column. -/
theorem c6_convert_raises_on_bad_column :
    convert_data_type dfC6 ["a", "b"] ("int") = .error .typeError ∧
    castIntCell (dfC6.cellAt ("a") 0) = .error .typeError :=
  ⟨rfl, rfl⟩

/-- Claim C6, amended.  The partial-failure semantics holds exactly for
`ValueError` failures: on a batch of distinct existing columns whose
per-column conversions each succeed or fail with `ValueError`, the call
never raises — failing columns are left unchanged, the other columns are
still converted, columns outside the batch are untouched, and the table is
returned.  Failures of any other kind (such as the `TypeError` above)
propagate. -/
theorem c6_convert_valueerrors_contained (df : Table) (cols : List String)
    (dtype : String) (hnd : cols.Nodup)
    (h : ∀ c ∈ cols, (df.getCol c).isSome = true ∧
      nonFatalB (convertCol dtype (df.getColD c)) = true) :
    ∃ df2, convert_data_type df cols dtype = .ok df2 ∧
      (∀ nm, nm ∉ cols → df2.getCol nm = df.getCol nm) ∧
      (∀ c ∈ cols, convertCol dtype (df.getColD c) = .error .valueError →
        df2.getCol c = df.getCol c) ∧
      (∀ c ∈ cols, ∀ cells2, convertCol dtype (df.getColD c) = .ok cells2 →
        df2.getCol c = some cells2) := by
  unfold convert_data_type
  exact convert_fold_ok dtype cols df hnd h

/-- Witness for C6's amended theorem: column a fails with `ValueError`
(unparseable string), column b converts; the batch completes. -/
theorem c6_convert_valueerrors_contained_witness :
    ((["a", "b"] : List String).Nodup ∧
      (∀ c ∈ (["a", "b"] : List String), (dfW.getCol c).isSome = true ∧
        nonFatalB (convertCol ("int") (dfW.getColD c)) = true)) ∧
    (∃ df2, convert_data_type dfW ["a", "b"] ("int") = .ok df2 ∧
      (∀ nm, nm ∉ (["a", "b"] : List String) → df2.getCol nm = dfW.getCol nm) ∧
      (∀ c ∈ (["a", "b"] : List String),
        convertCol ("int") (dfW.getColD c) = .error .valueError →
        df2.getCol c = dfW.getCol c) ∧
      (∀ c ∈ (["a", "b"] : List String), ∀ cells2,
        convertCol ("int") (dfW.getColD c) = .ok cells2 →
        df2.getCol c = some cells2)) :=
  ⟨⟨by decide, by decide⟩,
    c6_convert_valueerrors_contained dfW ["a", "b"] ("int")
      (by decide) (by decide)⟩

/-- Claim C7 (confirmed).  On any table and any list of existing columns,
`remove_duplicate_rows_by_columns` returns `None` to its caller — the
`inplace=True` deduplication's discarded return value — while the table
itself is mutated to the deduplicated rows; a row position is kept exactly
when no earlier row agrees with it on the given columns (first occurrence
kept). -/
theorem c7_remove_duplicates_yields_none (df : Table) (columns : List String)
    (h : ∀ c ∈ columns, c ∈ df.names) :
    remove_duplicate_rows_by_columns df columns = .ok (none, ddTable df columns) ∧
    (∀ i, i ∈ keptRows df columns ↔ i < df.nrows ∧
      ∀ j, j < i → rowKey df columns j ≠ rowKey df columns i) := by
  constructor
  · have hv : columns.any (fun c => !(df.names.contains c)) = false :=
      List.any_eq_false.mpr (fun c hc => by simp [h c hc])
    unfold remove_duplicate_rows_by_columns dropDuplicates
    rw [hv]
    rfl
  · intro i
    simp [keptRows, List.mem_filter, List.mem_range, List.all_eq_true]

/-- Witness for C7: deduplicating `dfd` on its key column k returns `None`
with rows 0 and 2 kept. -/
theorem c7_remove_duplicates_yields_none_witness :
    (∀ c ∈ (["k"] : List String), c ∈ dfd.names) ∧
    (remove_duplicate_rows_by_columns dfd ["k"] = .ok (none, ddTable dfd ["k"]) ∧
      (∀ i, i ∈ keptRows dfd ["k"] ↔ i < dfd.nrows ∧
        ∀ j, j < i → rowKey dfd ["k"] j ≠ rowKey dfd ["k"] i)) :=
  ⟨by decide, c7_remove_duplicates_yields_none dfd ["k"] (by decide)⟩

/-- Claim C8 (confirmed).  For any valid merge type, `combine_dataframes`
returns the configuration `ValueError` exactly when direction is
horizontal with a falsy `join_columns` (absent or empty — Python
truthiness), or when direction is neither horizontal nor vertical; and a
horizontal call with join columns present is exactly the merge on those
columns — never a fallback default join.  (The error is returned before
any merge or concatenation is attempted.) -/
theorem c8_combine_config_errors (df1 df2 : Table)
    (onCols : Option (List String)) (how direction : String)
    (hhow : how ∈ validHows) :
    (isValueError (combine_dataframes df1 df2 onCols how direction) =
      (((direction == ("horizontal")) && !(onTruthy onCols)) ||
        (!(direction == ("horizontal")) && !(direction == ("vertical"))))) ∧
    (direction = ("horizontal") → onTruthy onCols = true →
      combine_dataframes df1 df2 onCols how direction =
        merge df1 df2 (onCols.getD []) how) := by
  constructor
  · unfold combine_dataframes
    cases hd : (direction == ("horizontal")) with
    | true =>
      cases ho : onTruthy onCols with
      | true => simp [hd, ho, merge_not_valueError df1 df2 (onCols.getD []) how hhow]
      | false => simp [hd, ho, isValueError]
    | false =>
      cases hv : (direction == ("vertical")) with
      | true => simp [hd, hv, isValueError]
      | false => simp [hd, hv, isValueError]
  · intro hdir hon
    simp [combine_dataframes, hdir, hon]

/-- Witness for C8: an outer horizontal merge of `t1` and `t2` on k. -/
theorem c8_combine_config_errors_witness :
    (("outer") ∈ validHows) ∧
    ((isValueError (combine_dataframes t1 t2 (some ["k"]) ("outer") ("horizontal")) =
      (((("horizontal" : String) == ("horizontal")) && !(onTruthy (some ["k"]))) ||
        (!(("horizontal" : String) == ("horizontal")) &&
          !(("horizontal" : String) == ("vertical"))))) ∧
      (("horizontal" : String) = ("horizontal") → onTruthy (some ["k"]) = true →
        combine_dataframes t1 t2 (some ["k"]) ("outer") ("horizontal") =
          merge t1 t2 ((some ["k"] : Option (List String)).getD []) ("outer"))) :=
  ⟨by decide, c8_combine_config_errors t1 t2 (some ["k"]) ("outer") ("horizontal")
    (by decide)⟩

/-- Claim C9 (confirmed).  `remove_constant_or_unique_columns` is
idempotent: the row count is unchanged by column filtering, so every
surviving column still has a distinct-value count different from 1 and
from the row count, and a second pass keeps them all. -/
theorem c9_remove_constant_or_unique_idempotent (df : Table) :
    remove_constant_or_unique_columns (remove_constant_or_unique_columns df) =
      remove_constant_or_unique_columns df := by
  unfold remove_constant_or_unique_columns Table.nrows
  simp [List.filter_filter]

/-- Claim C10, counterexample.  On a one-row table whose single cell is
missing, `nunique` counts DISTINCT NON-MISSING values, giving 0 — neither
1 nor the row count — so the column is kept, not dropped: the result is
the table itself, which still has a column.  The claim's premise (the
distinct count is simultaneously 1 and the row count) fails for
all-missing columns. -/
theorem c10_one_row_missing_column_kept :
    dfm.nrows = 1 ∧
    remove_constant_or_unique_columns dfm = dfm ∧
    dfm.cols ≠ [] :=
  ⟨rfl, rfl, by decide⟩

/-- Claim C10, amended.  On a one-row table all of whose cells are present
(each column one non-missing cell), every column has distinct-value count
1 = row count, so all columns are dropped and a zero-column table over the
same index remains. -/
theorem c10_one_row_all_nonmissing_drops_all (df : Table)
    (h1 : df.nrows = 1)
    (h2 : ∀ p ∈ df.cols, p.2.length = 1 ∧ ∀ c ∈ p.2, c.isSome = true) :
    remove_constant_or_unique_columns df = ⟨df.index, []⟩ := by
  unfold remove_constant_or_unique_columns
  congr 1
  rw [List.filter_eq_nil_iff]
  intro p hp
  obtain ⟨hlen, hsome⟩ := h2 p hp
  obtain ⟨a, ha⟩ := List.length_eq_one.mp hlen
  obtain ⟨v, rfl⟩ := Option.isSome_iff_exists.mp (hsome a (by simp [ha]))
  simp [keepCol, nunique, ha, h1]

/-- Witness for C10's amended theorem: a one-row table with the single
present value 5 loses its only column. -/
theorem c10_one_row_all_nonmissing_drops_all_witness :
    (df1r.nrows = 1 ∧
      (∀ p ∈ df1r.cols, p.2.length = 1 ∧ ∀ c ∈ p.2, c.isSome = true)) ∧
    remove_constant_or_unique_columns df1r = ⟨df1r.index, []⟩ :=
  ⟨⟨rfl, by decide⟩,
    c10_one_row_all_nonmissing_drops_all df1r rfl (by decide)⟩

end AutoEDAer
